/-
Verification of the AURA real-estate CRM scoring and automation engine
(`analytics.py`, `automation.py`, `database.py`), shallowly embedded in Lean 4.

Modelling conventions:
* Timestamps are integers counting microseconds since the Unix epoch
  (`datetime` in CPython stores microsecond precision);
  `timedelta.days` is floor division by `tpd` (`Int.fdiv`).
* A date column of the SQLite database is modelled by `RawDate`: the stored
  text (`raw`, what SQL string comparisons see) together with the result of
  `datetime.fromisoformat` on it (`parsed`, `none` when parsing raises).
* SQLite compares TEXT columns bytewise, which for the ASCII strings at hand
  is the lexicographic `String` order of Lean.
* Python floats are modelled by `ℚ`; `round(x, 1)` is round-half-to-even on
  the scaled value, matching CPython's documented rounding of exact halves.
* SQL `NULL` is `Option.none`; Python truthiness of a string (`if not s`)
  additionally treats the empty string as absent.
-/
import Mathlib

namespace Aura

/-- Microseconds per day: the divisor behind `timedelta.days`. -/
def tpd : ℤ := 86400000000

/-- A date column value as stored in SQLite: raw text plus the result of
`datetime.fromisoformat` (`none` when unparseable). -/
structure RawDate where
  raw : String
  parsed : Option ℤ
  deriving Repr, DecidableEq

/-- Python `a or b` on optional date strings: `None` and the empty string
both fall through to `b`. -/
def pyOr (a b : Option RawDate) : Option RawDate :=
  match a with
  | none => b
  | some d => if d.raw = "" then b else some d

/-- Whether the char list `needle` is an initial segment of `hay`. -/
def strHeadMatch : List Char → List Char → Bool
  | [], _ => true
  | _ :: _, [] => false
  | a :: as, b :: bs => a = b && strHeadMatch as bs

/-- Whether the char list `needle` occurs contiguously inside `hay`. -/
def strFindSub (needle : List Char) : List Char → Bool
  | [] => needle.isEmpty
  | c :: rest => strHeadMatch needle (c :: rest) || strFindSub needle rest

/-- Python's `needle in hay` on strings (contiguous substring test). -/
def strContains (hay needle : String) : Bool :=
  strFindSub needle.toList hay.toList

/-- Python's `str.lower` (ASCII case folding suffices for the data at hand),
as a character-by-character map. -/
def strLower (s : String) : String :=
  String.mk (s.data.map Char.toLower)

/-- Round half to even to the nearest integer, CPython's `round` on exact
rational halves. -/
def roundHalfEven (x : ℚ) : ℤ :=
  let n : ℤ := ⌊x⌋
  let f : ℚ := x - n
  if f < 1/2 then n
  else if 1/2 < f then n + 1
  else if Even n then n else n + 1

/-- Python `round(x, 1)`. -/
def round1 (x : ℚ) : ℚ :=
  (roundHalfEven (x * 10) : ℚ) / 10

/-- Decimal digits of `n`, zero-padded on the left to `w` places. -/
def pad (n : ℕ) (w : ℕ) : String :=
  let s := toString n
  String.mk (List.replicate (w - s.length) ('0')) ++ s

/-- Civil calendar date (year, month, day) of a day count since 1970-01-01,
the standard days-to-civil conversion used by CPython's `datetime`. -/
def civilFromDays (z0 : ℤ) : ℤ × ℕ × ℕ :=
  let z : ℤ := z0 + 719468
  let era : ℤ := Int.fdiv z 146097
  let doe : ℕ := (z - era * 146097).toNat
  let yoe : ℕ := (doe - doe / 1460 + doe / 36524 - doe / 146096) / 365
  let y : ℤ := (yoe : ℤ) + era * 400
  let doy : ℕ := doe - (365 * yoe + yoe / 4 - yoe / 100)
  let mp : ℕ := (5 * doy + 2) / 153
  let d : ℕ := doy - (153 * mp + 2) / 5 + 1
  let m : ℕ := if mp < 10 then mp + 3 else mp - 9
  (if m ≤ 2 then y + 1 else y, m, d)

/-- `datetime.isoformat()` of a timestamp: `YYYY-MM-DDTHH:MM:SS` with a
`.ffffff` suffix exactly when the microsecond part is nonzero. -/
def isoformat (t : ℤ) : String :=
  let days : ℤ := Int.fdiv t tpd
  let r : ℕ := (t - days * tpd).toNat
  let ymd := civilFromDays days
  let sec : ℕ := r / 1000000
  let micro : ℕ := r % 1000000
  pad ymd.1.toNat 4 ++ "-" ++ pad ymd.2.1 2 ++ "-" ++ pad ymd.2.2 2 ++ "T" ++
    pad (sec / 3600) 2 ++ ":" ++ pad (sec % 3600 / 60) 2 ++ ":" ++ pad (sec % 60) 2 ++
    (if micro = 0 then "" else "." ++ pad micro 6)

/-! ## Data model: rows of the `Contacts` table (the columns the engine reads) -/

/-- A row of `Contacts` as selected by `analytics.score_leads` and
`automation.get_follow_up_tasks` / `find_matching_buyers`. -/
structure Contact where
  id : ℤ
  name : String
  email : String
  phone : String
  lead_status : String
  source : String
  last_contacted_date : Option RawDate
  created_date : Option RawDate
  notes : Option String
  deriving Repr, DecidableEq

/-! ## `analytics.py`: lead scoring -/

/-- `status_scores.get(contact[4], 10)` in `_calculate_lead_score`. -/
def status_scores (s : String) : ℤ :=
  if s = "Hot" then 100 else if s = "Warm" then 60 else if s = "Cold" then 20 else 10

/-- `source_scores.get(contact[5], 40)` in `_calculate_lead_score`. -/
def source_scores (s : String) : ℤ :=
  if s = "Referral" then 90
  else if s = "Previous Client" then 85
  else if s = "Social Media" then 70
  else if s = "Website" then 60
  else if s = "Walk-in" then 50
  else if s = "Cold Call" then 30
  else 40

/-- `analytics._calculate_recency_score`: reference date is
`last_contacted_date or created_date` (`if not reference_date_str` also
catches an empty result string); absent, empty or unparseable dates score
the default 30; otherwise a step function of `(now - reference).days`. -/
def calculate_recency_score (now : ℤ) (last_contacted_date created_date : Option RawDate) : ℤ :=
  match pyOr last_contacted_date created_date with
  | none => 30
  | some d =>
    if d.raw = "" then 30
    else
    match d.parsed with
    | none => 30
    | some t =>
      let days_since : ℤ := Int.fdiv (now - t) tpd
      if days_since ≤ 1 then 100
      else if days_since ≤ 3 then 80
      else if days_since ≤ 7 then 60
      else if days_since ≤ 30 then 40
      else if days_since ≤ 90 then 20
      else 10

/-- `analytics._calculate_engagement_score` on the two SQL counts
(`property_interests`, `task_count`); the `except` branch (store failure)
returns the same default band and is outside this pure model. -/
def calculate_engagement_score (property_interests task_count : ℕ) : ℤ :=
  min ((property_interests : ℤ) * 30 + (task_count : ℤ) * 20) 100

/-- The three keyword tables of `analytics._calculate_intent_score`. -/
def high_intent_keywords : List String :=
  ["urgent", "asap", "ready to buy", "cash buyer", "pre-approved", "mortgage approved"]

def medium_intent_keywords : List String :=
  ["interested", "looking for", "budget", "timeline", "viewing"]

def negative_keywords : List String :=
  ["not interested", "postpone", "delay", "maybe later"]

/-- One `for keyword in ...: if keyword in notes_lower: score += w` loop. -/
def keywordLoop (notes_lower : String) (w : ℤ) (kws : List String) (score : ℤ) : ℤ :=
  kws.foldl (fun acc k => if strContains notes_lower k then acc + w else acc) score

/-- `analytics._calculate_intent_score`: `if not notes: return 30`; otherwise
base 50, +20 per high-intent keyword found, +10 per medium, −15 per negative,
clamped to [0, 100]. -/
def calculate_intent_score (notes : Option String) : ℤ :=
  match notes with
  | none => 30
  | some s =>
    if s = "" then 30
    else
      let notes_lower := strLower s
      let score : ℤ := 50
      let score := keywordLoop notes_lower 20 high_intent_keywords score
      let score := keywordLoop notes_lower 10 medium_intent_keywords score
      let score := keywordLoop notes_lower (-15) negative_keywords score
      max (min score 100) 0

/-- The factor breakdown returned by `_calculate_lead_score`. -/
structure ScoreBreakdown where
  lead_status : ℤ
  source : ℤ
  recency : ℤ
  engagement : ℤ
  intent : ℤ
  deriving Repr, DecidableEq

/-- Result of `_calculate_lead_score` (the recommendation string is derived
text and not modelled). -/
structure LeadScoreData where
  total_score : ℚ
  breakdown : ScoreBreakdown
  deriving Repr, DecidableEq

/-- `analytics._calculate_lead_score`: the weighted sum of the five factor
scores, total rounded to one decimal. `property_interests` and `task_count`
are the two engagement counts the cursor reads for this contact. -/
def calculate_lead_score (now : ℤ) (c : Contact) (property_interests task_count : ℕ) :
    LeadScoreData :=
  let status_score := status_scores c.lead_status
  let total_score : ℚ := 0 + (status_score : ℚ) * 0.4
  let source_score := source_scores c.source
  let total_score := total_score + (source_score : ℚ) * 0.15
  let recency_score := calculate_recency_score now c.last_contacted_date c.created_date
  let total_score := total_score + (recency_score : ℚ) * 0.2
  let engagement_score := calculate_engagement_score property_interests task_count
  let total_score := total_score + (engagement_score : ℚ) * 0.15
  let intent_score := calculate_intent_score c.notes
  let total_score := total_score + (intent_score : ℚ) * 0.1
  { total_score := round1 total_score
    breakdown :=
      { lead_status := status_score
        source := source_score
        recency := recency_score
        engagement := engagement_score
        intent := intent_score } }

/-- `analytics._get_priority_level`. -/
def get_priority_level (score : ℚ) : String :=
  if score ≥ 80 then "High"
  else if score ≥ 60 then "Medium"
  else if score ≥ 40 then "Low"
  else "Very Low"

/-! ## `database.py` / `analytics._update_lead_scores_in_db`: the `LeadScores` table

Schema (database.py):
`CREATE TABLE LeadScores (id INTEGER PRIMARY KEY AUTOINCREMENT, contact_id INTEGER,
score INTEGER, score_factors TEXT, last_calculated TEXT, FOREIGN KEY ...)`.
The only uniqueness constraint is the autoincrement primary key `id`. -/

/-- A row of `LeadScores`. -/
structure ScoreRow where
  id : ℤ
  contact_id : ℤ
  score : ℚ
  score_factors : String
  last_calculated : String
  deriving Repr, DecidableEq

/-- The next `AUTOINCREMENT` rowid: one more than the largest id present. -/
def nextScoreId (tbl : List ScoreRow) : ℤ :=
  1 + tbl.foldl (fun m r => max m r.id) 0

/-- SQLite semantics of
`INSERT OR REPLACE INTO LeadScores (contact_id, score, score_factors,
last_calculated) VALUES (?,?,?,?)` under the schema above: the statement
omits `id`, so a fresh autoincrement id is assigned; the fresh id can
violate no constraint and `contact_id` carries no UNIQUE constraint, hence
the `OR REPLACE` clause never fires and the row is appended. -/
def leadScoresInsertOrReplace (tbl : List ScoreRow)
    (contact_id : ℤ) (score : ℚ) (score_factors last_calculated : String) :
    List ScoreRow :=
  tbl ++ [{ id := nextScoreId tbl
            contact_id := contact_id
            score := score
            score_factors := score_factors
            last_calculated := last_calculated }]

/-- The (contact_id, score, serialized breakdown) triple of one scored lead,
as bound by `_update_lead_scores_in_db`. -/
structure ScoredLead where
  contact_id : ℤ
  score : ℚ
  score_factors : String
  deriving Repr, DecidableEq

/-- `analytics._update_lead_scores_in_db`: one insert-or-replace per scored
lead, all stamped with the same `current_time`. -/
def update_lead_scores_in_db (scored_leads : List ScoredLead)
    (current_time : String) (tbl : List ScoreRow) : List ScoreRow :=
  scored_leads.foldl
    (fun t lead => leadScoresInsertOrReplace t lead.contact_id lead.score
      lead.score_factors current_time) tbl

/-! ## `automation.py`: follow-up tasks -/

/-- `automation._calculate_follow_up_priority`. -/
def calculate_follow_up_priority (status : String) (days_overdue : ℤ) : ℤ :=
  let base_priority : ℤ :=
    if status = "Hot" then 100 else if status = "Warm" then 60
    else if status = "Cold" then 20 else 10
  let urgency_bonus : ℤ := min (days_overdue * 10) 50
  base_priority + urgency_bonus

/-- An entry of the list built by `automation.get_follow_up_tasks`. -/
structure FollowUpTask where
  contact_id : ℤ
  name : String
  email : String
  phone : String
  status : String
  last_contacted_date : Option String
  days_overdue : ℤ
  priority : ℤ
  deriving Repr, DecidableEq

/-- SQL predicate of the per-status SELECT:
`last_contacted_date IS NULL OR last_contacted_date < cutoff` (SQLite
compares the stored TEXT against the cutoff string bytewise). -/
def sqlFollowUpPass (cutoffRaw : String) (c : Contact) : Bool :=
  match c.last_contacted_date with
  | none => true
  | some d => d.raw.data < cutoffRaw.data

/-- Sort key of the per-status SELECT's
`ORDER BY CASE WHEN last_contacted_date IS NULL THEN created_date
ELSE last_contacted_date END ASC`; SQL NULLs sort first in ASC order. -/
def coalesceDateKey (c : Contact) : Option String :=
  match c.last_contacted_date with
  | none => Option.map RawDate.raw c.created_date
  | some d => some d.raw

/-- ASC ordering on the optional TEXT sort key (NULL first). -/
def dateKeyLe (a b : Contact) : Prop :=
  match coalesceDateKey a, coalesceDateKey b with
  | none, _ => True
  | some _, none => False
  | some s, some t => s.data ≤ t.data

instance : DecidableRel dateKeyLe := by
  intro a b
  unfold dateKeyLe
  rcases coalesceDateKey a with _ | s <;> rcases coalesceDateKey b with _ | t <;>
    simp <;> infer_instance

instance : IsTotal Contact dateKeyLe := by
  constructor
  intro a b
  unfold dateKeyLe
  rcases coalesceDateKey a with _ | s <;> rcases coalesceDateKey b with _ | t <;> simp
  exact le_total s.data t.data

instance : IsTrans Contact dateKeyLe := by
  constructor
  intro a b c
  unfold dateKeyLe
  rcases coalesceDateKey a with _ | s <;> rcases coalesceDateKey b with _ | t <;>
    rcases coalesceDateKey c with _ | u <;> simp
  exact le_trans

/-- `days_overdue` as computed in the python loop body: reference string is
`contact[5] or contact[6]` (`if last_contact_str` also catches an empty
result string); absent, empty or unparseable references default to
`interval + 1`; otherwise `(current_date - last_contact_date).days`. -/
def followUpDaysOverdue (now : ℤ) (interval : ℤ) (c : Contact) : ℤ :=
  match pyOr c.last_contacted_date c.created_date with
  | none => interval + 1
  | some d =>
    if d.raw = "" then interval + 1
    else
    match d.parsed with
    | none => interval + 1
    | some t => Int.fdiv (now - t) tpd

/-- The dict appended to `follow_ups` for one selected contact. -/
def followUpEntry (status : String) (c : Contact) (days_overdue : ℤ) : FollowUpTask :=
  { contact_id := c.id
    name := c.name
    email := c.email
    phone := c.phone
    status := c.lead_status
    last_contacted_date := Option.map RawDate.raw c.last_contacted_date
    days_overdue := days_overdue
    priority := calculate_follow_up_priority status days_overdue }

/-- The follow-up entries contributed by one `(status, interval)` pair of the
loop in `get_follow_up_tasks`: SQL row filter and ordering, then the python
`days_overdue >= interval` filter and the dict construction. -/
def followUpsForStatus (now : ℤ) (db : List Contact) (status : String) (interval : ℤ) :
    List FollowUpTask :=
  let cutoffRaw := isoformat (now - interval * tpd)
  let selected :=
    (db.filter (fun c => c.lead_status = status && sqlFollowUpPass cutoffRaw c)).insertionSort
      dateKeyLe
  (selected.map (fun c =>
      let days_overdue := followUpDaysOverdue now interval c
      (c, days_overdue))).filterMap
    (fun p => if p.2 ≥ interval then some (followUpEntry status p.1 p.2) else none)

/-- Final ordering of `get_follow_up_tasks`:
`follow_ups.sort(key=lambda x: (-x['priority'], -x['days_overdue']))`,
i.e. descending priority, ties by descending `days_overdue`. -/
def followUpOrder (a b : FollowUpTask) : Prop :=
  b.priority < a.priority ∨ (a.priority = b.priority ∧ b.days_overdue ≤ a.days_overdue)

instance : DecidableRel followUpOrder := by
  intro a b
  unfold followUpOrder
  infer_instance

instance : IsTotal FollowUpTask followUpOrder := by
  constructor
  intro a b
  unfold followUpOrder
  rcases lt_trichotomy a.priority b.priority with h | h | h
  · exact Or.inr (Or.inl h)
  · rcases le_total a.days_overdue b.days_overdue with h2 | h2
    · exact Or.inr (Or.inr ⟨h.symm, h2⟩)
    · exact Or.inl (Or.inr ⟨h, h2⟩)
  · exact Or.inl (Or.inl h)

instance : IsTrans FollowUpTask followUpOrder := by
  constructor
  intro a b c hab hbc
  unfold followUpOrder at *
  rcases hab with h | ⟨he, hd⟩
  · rcases hbc with h2 | ⟨he2, _⟩
    · exact Or.inl (h2.trans h)
    · exact Or.inl (he2 ▸ h)
  · rcases hbc with h2 | ⟨he2, hd2⟩
    · exact Or.inl (he ▸ h2)
    · exact Or.inr ⟨he.trans he2, hd2.trans hd⟩

/-- `automation.get_follow_up_tasks` on a database snapshot `db` at time
`now`: the three status loops (`dict` iteration order Hot, Warm, Cold),
concatenated, then the final priority sort. -/
def get_follow_up_tasks (now : ℤ) (db : List Contact) : List FollowUpTask :=
  (followUpsForStatus now db "Hot" 1 ++ followUpsForStatus now db "Warm" 3 ++
      followUpsForStatus now db "Cold" 7).insertionSort followUpOrder

/-! ## `automation.py`: buyer matching -/

/-- A row of `Properties` (the columns read by the two operations below). -/
structure Property where
  id : ℤ
  property_type : Option String
  bedrooms : ℤ
  bathrooms : ℤ
  price : ℚ
  area : Option String
  deriving Repr, DecidableEq

/-- A row of `ContactProperties`. -/
structure ContactProperty where
  contact_id : ℤ
  property_id : ℤ
  relationship_type : String
  deriving Repr, DecidableEq

/-- A row of `Deals` (the columns read by `predict_deal_probability`). -/
structure Deal where
  id : ℤ
  contact_id : ℤ
  property_id : ℤ
  deal_value : ℚ
  created_date : Option RawDate
  status : String
  deriving Repr, DecidableEq

/-- The SQLite database snapshot the two operations read. -/
structure Store where
  contacts : List Contact
  properties : List Property
  contact_properties : List ContactProperty
  deals : List Deal
  deriving Repr, DecidableEq

/-- An entry of the list returned by `find_matching_buyers`. -/
structure BuyerMatch where
  contact_id : ℤ
  name : String
  email : String
  phone : String
  status : String
  notes : String
  match_score : ℤ
  deriving Repr, DecidableEq

/-- `automation._calculate_buyer_match_score`: status base score
(Hot 100, Warm 70, Cold 30, otherwise 10) plus keyword bonuses from the
contact's notes against the property's type and area strings. -/
def calculate_buyer_match_score (c : Contact) (p : Property) : ℤ :=
  let base_score : ℤ :=
    if c.lead_status = "Hot" then 100
    else if c.lead_status = "Warm" then 70
    else if c.lead_status = "Cold" then 30 else 10
  let notes := strLower (c.notes.getD "")
  let property_type := match p.property_type with
    | some s => strLower s
    | none => ""
  let area := match p.area with
    | some s => strLower s
    | none => ""
  let base_score := if strContains notes property_type then base_score + 20 else base_score
  let base_score := if strContains notes area then base_score + 15 else base_score
  let base_score :=
    if strContains notes "urgent" || strContains notes "asap" then base_score + 10
    else base_score
  base_score

/-- The SQL row filter of `find_matching_buyers`:
`lead_status IN ('Hot','Warm') AND id NOT IN
(SELECT contact_id FROM ContactProperties WHERE relationship_type = 'Owner')`.
Note the subquery is not restricted to the target property: owning any
property excludes the contact. -/
def buyerSqlPass (store : Store) (c : Contact) : Bool :=
  (c.lead_status = "Hot" || c.lead_status = "Warm") &&
    !(store.contact_properties.any
      (fun cp => cp.contact_id = c.id && cp.relationship_type = "Owner"))

/-- Sort key of the SELECT's
`ORDER BY CASE lead_status WHEN 'Hot' THEN 1 WHEN 'Warm' THEN 2 ELSE 3 END,
name`. -/
def buyerSqlOrder (a b : Contact) : Prop :=
  let rank : Contact → ℤ := fun c =>
    if c.lead_status = "Hot" then 1 else if c.lead_status = "Warm" then 2 else 3
  rank a < rank b ∨ (rank a = rank b ∧ a.name.data ≤ b.name.data)

instance : DecidableRel buyerSqlOrder := by
  intro a b
  unfold buyerSqlOrder
  infer_instance

instance : IsTotal Contact buyerSqlOrder := by
  constructor
  intro a b
  unfold buyerSqlOrder
  rcases lt_trichotomy
      (if a.lead_status = "Hot" then (1 : ℤ) else if a.lead_status = "Warm" then 2 else 3)
      (if b.lead_status = "Hot" then (1 : ℤ) else if b.lead_status = "Warm" then 2 else 3)
      with h | h | h
  · exact Or.inl (Or.inl h)
  · rcases le_total a.name.data b.name.data with h2 | h2
    · exact Or.inl (Or.inr ⟨h, h2⟩)
    · exact Or.inr (Or.inr ⟨h.symm, h2⟩)
  · exact Or.inr (Or.inl h)

instance : IsTrans Contact buyerSqlOrder := by
  constructor
  intro a b c hab hbc
  unfold buyerSqlOrder at *
  rcases hab with h | ⟨he, hd⟩
  · rcases hbc with h2 | ⟨he2, _⟩
    · exact Or.inl (h.trans h2)
    · exact Or.inl (he2 ▸ h)
  · rcases hbc with h2 | ⟨he2, hd2⟩
    · exact Or.inl (he ▸ h2)
    · exact Or.inr ⟨he.trans he2, hd.trans hd2⟩

/-- Descending `match_score` ordering of the final python sort. -/
def buyerScoreOrder (a b : BuyerMatch) : Prop :=
  b.match_score ≤ a.match_score

instance : DecidableRel buyerScoreOrder := by
  intro a b
  unfold buyerScoreOrder
  infer_instance

instance : IsTotal BuyerMatch buyerScoreOrder := by
  constructor
  intro a b
  exact le_total b.match_score a.match_score

instance : IsTrans BuyerMatch buyerScoreOrder := by
  constructor
  intro a b c hab hbc
  exact hbc.trans hab

/-- `automation.find_matching_buyers`: look up the property (unknown id gives
the empty list), select Hot/Warm non-owner contacts in SQL order, score each
against the property, and sort by descending match score. -/
def find_matching_buyers (store : Store) (property_id : ℤ) : List BuyerMatch :=
  match store.properties.find? (fun p => p.id = property_id) with
  | none => []
  | some p =>
    let selected := (store.contacts.filter (buyerSqlPass store)).insertionSort buyerSqlOrder
    let potential_buyers := selected.map (fun c =>
      { contact_id := c.id
        name := c.name
        email := c.email
        phone := c.phone
        status := c.lead_status
        notes := c.notes.getD ""
        match_score := calculate_buyer_match_score c p : BuyerMatch })
    potential_buyers.insertionSort buyerScoreOrder

/-- `find_matching_buyers` as a store transition: the source function only
issues SELECT statements, so the store it leaves behind is the one it read. -/
def find_matching_buyers_run (store : Store) (property_id : ℤ) :
    List BuyerMatch × Store :=
  (find_matching_buyers store property_id, store)

/-! ## `analytics.predict_deal_probability` -/

/-- The row of the deal/contact/property join selected by
`predict_deal_probability` (only the columns the function reads). -/
structure JoinedDealRow where
  deal_id : ℤ
  deal_value : ℚ
  created_date : Option RawDate
  deal_status : String
  lead_status : String
  source : String
  last_contacted_date : Option RawDate
  deriving Repr, DecidableEq

/-- `SELECT ... FROM Deals d JOIN Contacts c ON d.contact_id = c.id JOIN
Properties p ON d.property_id = p.id WHERE d.id = ?` followed by
`fetchone()`: the first matching row, `none` when the deal id is unknown or
an inner join partner is missing. -/
def fetchDealJoined (store : Store) (deal_id : ℤ) : Option JoinedDealRow :=
  match store.deals.find? (fun d => d.id = deal_id) with
  | none => none
  | some d =>
    match store.contacts.find? (fun c => c.id = d.contact_id) with
    | none => none
    | some c =>
      match store.properties.find? (fun p => p.id = d.property_id) with
      | none => none
      | some _ =>
        some { deal_id := d.id
               deal_value := d.deal_value
               created_date := d.created_date
               deal_status := d.status
               lead_status := c.lead_status
               source := c.source
               last_contacted_date := c.last_contacted_date }

/-- The `probability_factors` dict. -/
structure ProbabilityFactors where
  lead_status : ℤ
  lead_source : ℤ
  deal_age : ℤ
  recent_contact : ℤ
  deriving Repr, DecidableEq

/-- Sum of the four factor impacts as reported in the breakdown. -/
def factorsSum (f : ProbabilityFactors) : ℤ :=
  f.lead_status + f.lead_source + f.deal_age + f.recent_contact

/-- `analytics._get_confidence_level`. -/
def get_confidence_level (probability : ℤ) : String :=
  if probability ≥ 80 then "Very High"
  else if probability ≥ 60 then "High"
  else if probability ≥ 40 then "Moderate"
  else if probability ≥ 20 then "Low"
  else "Very Low"

/-- Success payload of `predict_deal_probability` (`round(total, 1)` on the
integer total is the identity, so `probability` is the clamped integer
total; the recommendation strings are derived text and not modelled). -/
structure DealPrediction where
  deal_id : ℤ
  probability : ℤ
  probability_factors : ProbabilityFactors
  confidence_level : String
  deriving Repr, DecidableEq

/-- Deal-age branch of `predict_deal_probability`: returns
(amount added to the total, factor recorded in the breakdown). A missing or
unparseable `created_date` raises into the `except` arm, which records the
factor 0 and adds nothing. -/
def dealAgeBranch (now : ℤ) (created_date : Option RawDate) : ℤ × ℤ :=
  match created_date with
  | none => (0, 0)
  | some d =>
    match d.parsed with
    | none => (0, 0)
    | some t =>
      let days_old := Int.fdiv (now - t) tpd
      let age_impact : ℤ :=
        if days_old ≤ 7 then 10 else if days_old ≤ 30 then 0
        else if days_old ≤ 60 then -10 else -20
      (age_impact, age_impact)

/-- Recent-contact branch of `predict_deal_probability`: returns
(amount added to the total, factor recorded in the breakdown). When
`deal_data[6]` is falsy (NULL or empty) or parsing raises, the code records
the factor −10 in the breakdown but adds nothing to the total. -/
def recentContactBranch (now : ℤ) (last_contacted_date : Option RawDate) : ℤ × ℤ :=
  match last_contacted_date with
  | none => (0, -10)
  | some d =>
    if d.raw = "" then (0, -10)
    else
      match d.parsed with
      | none => (0, -10)
      | some t =>
        let days_since_contact := Int.fdiv (now - t) tpd
        let contact_impact : ℤ :=
          if days_since_contact ≤ 3 then 15 else if days_since_contact ≤ 7 then 5
          else if days_since_contact ≤ 14 then -5 else -15
        (contact_impact, contact_impact)

/-- `analytics.predict_deal_probability`: join lookup (unknown deal gives the
`'Deal not found'` error object), base 50 plus the four factor branches,
clamped to [0, 100]. -/
def predict_deal_probability (now : ℤ) (store : Store) (deal_id : ℤ) :
    Except String DealPrediction :=
  match fetchDealJoined store deal_id with
  | none => Except.error "Deal not found"
  | some row =>
    let total_probability : ℤ := 50
    let lead_impact : ℤ :=
      if row.lead_status = "Hot" then 30 else if row.lead_status = "Warm" then 15
      else if row.lead_status = "Cold" then -20 else 0
    let total_probability := total_probability + lead_impact
    let source_effect : ℤ :=
      if row.source = "Referral" then 20 else if row.source = "Previous Client" then 25
      else if row.source = "Website" then 10 else if row.source = "Walk-in" then 5
      else if row.source = "Cold Call" then -10 else 0
    let total_probability := total_probability + source_effect
    let age := dealAgeBranch now row.created_date
    let total_probability := total_probability + age.1
    let recent := recentContactBranch now row.last_contacted_date
    let total_probability := total_probability + recent.1
    let total_probability := max 0 (min 100 total_probability)
    Except.ok
      { deal_id := deal_id
        probability := total_probability
        probability_factors :=
          { lead_status := lead_impact
            lead_source := source_effect
            deal_age := age.2
            recent_contact := recent.2 }
        confidence_level := get_confidence_level total_probability }

/-- `predict_deal_probability` as a store transition: the source function
only issues SELECT statements, so the store is returned unchanged. -/
def predict_deal_probability_run (now : ℤ) (store : Store) (deal_id : ℤ) :
    Except String DealPrediction × Store :=
  (predict_deal_probability now store deal_id, store)

/-! ## Helper lemmas -/

theorem keywordLoop_eq (nl : String) (w : ℤ) (kws : List String) (a : ℤ) :
    keywordLoop nl w kws a = a + w * (kws.countP (fun k => strContains nl k) : ℤ) := by
  induction kws generalizing a with
  | nil => simp [keywordLoop]
  | cons k ks ih =>
    unfold keywordLoop at ih ⊢
    by_cases h : strContains nl k
    · simp only [List.foldl_cons, h, if_true, List.countP_cons, ih]
      push_cast
      ring
    · simp only [List.foldl_cons, h, if_false, List.countP_cons, ih, Bool.false_eq_true]
      push_cast
      ring

theorem calculate_intent_score_nonneg (notes : Option String) :
    0 ≤ calculate_intent_score notes := by
  unfold calculate_intent_score
  rcases notes with _ | s
  · norm_num
  · by_cases h : s = "" <;> simp [h]

theorem calculate_intent_score_le (notes : Option String) :
    calculate_intent_score notes ≤ 100 := by
  unfold calculate_intent_score
  rcases notes with _ | s
  · norm_num
  · by_cases h : s = ""
    · simp [h]
    · simp only [h, if_false]
      exact max_le (min_le_right _ _) (by norm_num)

/-- The intent formula as the claim words it: base 50, +20 per high-intent
keyword found in the lowercased notes, +10 per medium-intent keyword, −15
per negative keyword, clamped to [0, 100]. (Claim-side definition, for
comparison with `calculate_intent_score`.) -/
def intentScoreSpec (s : String) : ℤ :=
  let nl := strLower s
  max (min (50 + 20 * (high_intent_keywords.countP (fun k => strContains nl k) : ℤ)
    + 10 * (medium_intent_keywords.countP (fun k => strContains nl k) : ℤ)
    - 15 * (negative_keywords.countP (fun k => strContains nl k) : ℤ)) 100) 0

/-! ## C5 -/

/-- C5 counterexample: the claim's formula covers "empty or absent notes",
but the code short-circuits falsy notes to the fixed default 30, while the
formula yields base 50 for an empty string (no keyword matches). -/
theorem intent_score_empty_notes_ce :
    calculate_intent_score (some ("")) = 30 ∧ intentScoreSpec "" = 50 ∧ (30 : ℤ) ≠ 50 := by
  decide

/-- C5 (amended): for every nonempty notes string the intent sub-score equals
base 50, +20 per high-intent keyword found, +10 per medium-intent keyword,
−15 per negative keyword, clamped to [0, 100]; absent (`None`) or empty
notes instead yield the fixed default 30; and the result always lies in
[0, 100] no matter how many keyword hits occur. -/
theorem intent_score_amended (notes : Option String) :
    0 ≤ calculate_intent_score notes ∧ calculate_intent_score notes ≤ 100 ∧
    calculate_intent_score none = 30 ∧ calculate_intent_score (some ("")) = 30 ∧
    ∀ s : String, notes = some s → s ≠ "" → calculate_intent_score notes = intentScoreSpec s := by
  refine ⟨calculate_intent_score_nonneg _, calculate_intent_score_le _, by decide, by decide, ?_⟩
  intro s hs hne
  subst hs
  unfold calculate_intent_score intentScoreSpec
  simp only [hne, if_false, keywordLoop_eq]
  ring_nf

/-- C5 witness: the amended theorem applied to a concrete nonempty notes
string. -/
theorem intent_score_amended_witness :
    calculate_intent_score (some ("urgent, big budget")) = intentScoreSpec "urgent, big budget" :=
  (intent_score_amended (some ("urgent, big budget"))).2.2.2.2 _ rfl (by decide)

/-! ## C9 -/

/-- Ordinal rank of the four priority tiers (claim-side helper used to state
monotonicity of the tier as a step function). -/
def tierRank (s : String) : ℕ :=
  if s = "High" then 3 else if s = "Medium" then 2 else if s = "Low" then 1 else 0

/-- C9: the priority tier is a pure function of the total lead score alone,
monotonically non-decreasing in the score, and changes value exactly at the
boundaries 40, 60 and 80 (≥80 High, ≥60 Medium, ≥40 Low, else Very Low). -/
theorem priority_level_step_monotone :
    (∀ s t : ℚ, s ≤ t → tierRank (get_priority_level s) ≤ tierRank (get_priority_level t)) ∧
    (∀ s : ℚ,
      (get_priority_level s = "High" ↔ 80 ≤ s) ∧
      (get_priority_level s = "Medium" ↔ 60 ≤ s ∧ s < 80) ∧
      (get_priority_level s = "Low" ↔ 40 ≤ s ∧ s < 60) ∧
      (get_priority_level s = "Very Low" ↔ s < 40)) := by
  have key : ∀ u : ℚ, tierRank (get_priority_level u) =
      if u ≥ 80 then 3 else if u ≥ 60 then 2 else if u ≥ 40 then 1 else 0 := by
    intro u
    unfold get_priority_level
    split_ifs with h1 h2 h3 <;> rfl
  constructor
  · intro s t hst
    rw [key s, key t]
    split_ifs <;> first | (exfalso; linarith) | norm_num
  · intro s
    unfold get_priority_level
    split_ifs with h1 h2 h3
    · exact ⟨⟨fun _ => h1, fun _ => rfl⟩,
        ⟨fun h => absurd h (by decide), fun h => absurd h.2 (not_lt.2 h1)⟩,
        ⟨fun h => absurd h (by decide), fun h => absurd h.2 (not_lt.2 (by linarith))⟩,
        ⟨fun h => absurd h (by decide), fun h => absurd h (not_lt.2 (by linarith))⟩⟩
    · exact ⟨⟨fun h => absurd h (by decide), fun h => absurd h h1⟩,
        ⟨fun _ => ⟨h2, not_le.1 h1⟩, fun _ => rfl⟩,
        ⟨fun h => absurd h (by decide), fun h => absurd h.2 (not_lt.2 h2)⟩,
        ⟨fun h => absurd h (by decide), fun h => absurd h (not_lt.2 (by linarith))⟩⟩
    · exact ⟨⟨fun h => absurd h (by decide), fun h => absurd h h1⟩,
        ⟨fun h => absurd h (by decide), fun h => absurd h.1 h2⟩,
        ⟨fun _ => ⟨h3, not_le.1 h2⟩, fun _ => rfl⟩,
        ⟨fun h => absurd h (by decide), fun h => absurd h (not_lt.2 h3)⟩⟩
    · exact ⟨⟨fun h => absurd h (by decide), fun h => absurd h h1⟩,
        ⟨fun h => absurd h (by decide), fun h => absurd h.1 h2⟩,
        ⟨fun h => absurd h (by decide), fun h => absurd h.1 h3⟩,
        ⟨fun _ => not_le.1 h3, fun _ => rfl⟩⟩

/-- C9 witness: monotonicity and the 80-boundary characterization at
concrete scores. -/
theorem priority_level_step_monotone_witness :
    tierRank (get_priority_level 45) ≤ tierRank (get_priority_level 85) ∧
    get_priority_level 85 = "High" :=
  ⟨priority_level_step_monotone.1 45 85 (by norm_num),
    (priority_level_step_monotone.2 85).1.mpr (by norm_num)⟩

/-! ## C1: score range and weighted-sum relation -/

theorem status_scores_bounds (s : String) :
    10 ≤ status_scores s ∧ status_scores s ≤ 100 := by
  unfold status_scores
  split_ifs <;> norm_num

theorem source_scores_bounds (s : String) :
    30 ≤ source_scores s ∧ source_scores s ≤ 90 := by
  unfold source_scores
  split_ifs <;> norm_num

theorem recency_score_bounds (now : ℤ) (l c : Option RawDate) :
    10 ≤ calculate_recency_score now l c ∧ calculate_recency_score now l c ≤ 100 := by
  unfold calculate_recency_score
  rcases pyOr l c with _ | d
  · norm_num
  · dsimp only
    by_cases hr : d.raw = ""
    · rw [if_pos hr]
      norm_num
    · rw [if_neg hr]
      rcases d.parsed with _ | t
      · norm_num
      · dsimp only
        split_ifs <;> norm_num

theorem engagement_score_bounds (property_interests task_count : ℕ) :
    0 ≤ calculate_engagement_score property_interests task_count ∧
    calculate_engagement_score property_interests task_count ≤ 100 := by
  unfold calculate_engagement_score
  constructor
  · exact le_min (by positivity) (by norm_num)
  · exact min_le_right _ _

theorem abs_roundHalfEven_sub_le (x : ℚ) : |(roundHalfEven x : ℚ) - x| ≤ 1/2 := by
  unfold roundHalfEven
  have h0 : (⌊x⌋ : ℚ) ≤ x := Int.floor_le x
  have h1 : x < ⌊x⌋ + 1 := Int.lt_floor_add_one x
  dsimp only
  split_ifs with hf hg he <;> (rw [abs_le]; constructor <;> push_cast <;> linarith)

theorem abs_round1_sub_le (x : ℚ) : |round1 x - x| ≤ 1/20 := by
  unfold round1
  have h := abs_roundHalfEven_sub_le (x * 10)
  have hrw : (roundHalfEven (x * 10) : ℚ) / 10 - x = ((roundHalfEven (x * 10) : ℚ) - x * 10) / 10 := by
    ring
  have h10 : |(10 : ℚ)| = 10 := by norm_num
  rw [hrw, abs_div, h10]
  linarith

/-- C1: for every contact (and engagement counts), the computed lead score
lies in [0, 100], and the weighted sum of the five breakdown sub-scores
(lead_status × 0.40 + source × 0.15 + recency × 0.20 + engagement × 0.15 +
intent × 0.10) equals the reported total score within the one-decimal
rounding tolerance 0.05. -/
theorem lead_score_range_and_weighted_sum (now : ℤ) (c : Contact)
    (property_interests task_count : ℕ) :
    0 ≤ (calculate_lead_score now c property_interests task_count).total_score ∧
    (calculate_lead_score now c property_interests task_count).total_score ≤ 100 ∧
    |(((calculate_lead_score now c property_interests task_count).breakdown.lead_status : ℚ) * 0.40
      + ((calculate_lead_score now c property_interests task_count).breakdown.source : ℚ) * 0.15
      + ((calculate_lead_score now c property_interests task_count).breakdown.recency : ℚ) * 0.20
      + ((calculate_lead_score now c property_interests task_count).breakdown.engagement : ℚ) * 0.15
      + ((calculate_lead_score now c property_interests task_count).breakdown.intent : ℚ) * 0.10)
      - (calculate_lead_score now c property_interests task_count).total_score| ≤ 1/20 := by
  obtain ⟨hst0, hst1⟩ := status_scores_bounds c.lead_status
  obtain ⟨hso0, hso1⟩ := source_scores_bounds c.source
  obtain ⟨hre0, hre1⟩ := recency_score_bounds now c.last_contacted_date c.created_date
  obtain ⟨hen0, hen1⟩ := engagement_score_bounds property_interests task_count
  have hin0 := calculate_intent_score_nonneg c.notes
  have hin1 := calculate_intent_score_le c.notes
  unfold calculate_lead_score
  dsimp only
  set st := status_scores c.lead_status with hstd
  set so := source_scores c.source with hsod
  set re := calculate_recency_score now c.last_contacted_date c.created_date with hred
  set en := calculate_engagement_score property_interests task_count with hend
  set it := calculate_intent_score c.notes with hitd
  set W : ℚ := 0 + (st : ℚ) * 0.4 + (so : ℚ) * 0.15 + (re : ℚ) * 0.2 + (en : ℚ) * 0.15
    + (it : ℚ) * 0.1 with hWd
  have hr := abs_round1_sub_le W
  have hq : ∀ a b : ℤ, a ≤ b → (a : ℚ) ≤ (b : ℚ) := fun a b h => by exact_mod_cast h
  have hWlo : (10.5 : ℚ) ≤ W := by
    have := hq _ _ hst0
    have := hq _ _ hso0
    have := hq _ _ hre0
    have := hq _ _ hen0
    have := hq _ _ hin0
    push_cast at *
    rw [hWd]
    linarith
  have hWhi : W ≤ 98.5 := by
    have := hq _ _ hst1
    have := hq _ _ hso1
    have := hq _ _ hre1
    have := hq _ _ hen1
    have := hq _ _ hin1
    push_cast at *
    rw [hWd]
    linarith
  rw [abs_le] at hr
  refine ⟨by linarith, by linarith, ?_⟩
  have hsum : ((st : ℚ) * 0.40 + (so : ℚ) * 0.15 + (re : ℚ) * 0.20 + (en : ℚ) * 0.15
      + (it : ℚ) * 0.10) = W := by
    rw [hWd]
    ring
  rw [hsum, abs_le]
  constructor <;> linarith

instance : DecidableEq (Except String DealPrediction) := fun x y =>
  match x, y with
  | .error a, .error b =>
    if h : a = b then isTrue (by rw [h]) else isFalse (fun he => by cases he; exact h rfl)
  | .error _, .ok _ => isFalse (fun h => by cases h)
  | .ok _, .error _ => isFalse (fun h => by cases h)
  | .ok a, .ok b =>
    if h : a = b then isTrue (by rw [h]) else isFalse (fun he => by cases he; exact h rfl)

/-! ## C2: LeadScores persistence -/

/-- C2 (code bug): the `LeadScores` schema constrains only the autoincrement
`id`, so `INSERT OR REPLACE` never replaces; scoring the same contact in two
runs leaves two rows for that contact instead of upserting one. -/
theorem lead_scores_accumulate_rows_bug :
    (update_lead_scores_in_db [({ contact_id := 7, score := 55, score_factors := "f" } : ScoredLead)]
        "2025-01-01T00:00:00" []).countP (fun r => r.contact_id = 7) = 1 ∧
    (update_lead_scores_in_db [({ contact_id := 7, score := 55, score_factors := "f" } : ScoredLead)]
        "2025-01-02T00:00:00"
        (update_lead_scores_in_db
          [({ contact_id := 7, score := 55, score_factors := "f" } : ScoredLead)]
          "2025-01-01T00:00:00" [])).countP (fun r => r.contact_id = 7) = 2 := by
  decide

/-! ## C4: recent-contact factor of the deal probability -/

/-- C4 (code bug): for a deal whose contact has no `last_contacted_date`, the
code records −10 as the `recent_contact` factor but never adds it to the
total, so the reported probability is 50 while base 50 plus the breakdown
factors is 40: the breakdown does not sum to the pre-clamp total. -/
theorem deal_probability_recent_contact_not_added_bug :
    predict_deal_probability (tpd * 20369)
      { contacts := [{ id := 3, name := "n", email := "e", phone := "p",
                       lead_status := "Prospect", source := "Billboard",
                       last_contacted_date := none, created_date := none, notes := none }],
        properties := [{ id := 9, property_type := none, bedrooms := 2, bathrooms := 2,
                         price := 100, area := none }],
        contact_properties := [],
        deals := [{ id := 1, contact_id := 3, property_id := 9, deal_value := 100,
                    created_date := some { raw := "2025-09-28T00:00:00",
                                           parsed := some (tpd * 20359) },
                    status := "Active" }] } 1 =
      Except.ok { deal_id := 1, probability := 50,
                  probability_factors :=
                    { lead_status := 0, lead_source := 0, deal_age := 0, recent_contact := -10 },
                  confidence_level := "Moderate" } ∧
    50 + factorsSum { lead_status := 0, lead_source := 0, deal_age := 0, recent_contact := -10 }
      = 40 ∧ (40 : ℤ) ≠ 50 := by
  decide

/-! ## C8: unknown identifiers -/

/-- C8: an identifier matching no stored record yields the designated
"not found" result — the `'Deal not found'` error object for
`predict_deal_probability`, the empty list for `find_matching_buyers` — with
no exception and the store left unchanged. -/
theorem unknown_ids_not_found (now : ℤ) (store : Store) (deal_id property_id : ℤ)
    (hd : ∀ d ∈ store.deals, d.id ≠ deal_id)
    (hp : ∀ p ∈ store.properties, p.id ≠ property_id) :
    predict_deal_probability_run now store deal_id = (Except.error "Deal not found", store) ∧
    find_matching_buyers_run store property_id = ([], store) := by
  have h1 : store.deals.find? (fun d => d.id = deal_id) = none := by
    rw [List.find?_eq_none]
    intro d hdm
    simpa using hd d hdm
  have h2 : store.properties.find? (fun p => p.id = property_id) = none := by
    rw [List.find?_eq_none]
    intro p hpm
    simpa using hp p hpm
  constructor
  · unfold predict_deal_probability_run predict_deal_probability fetchDealJoined
    rw [h1]
  · unfold find_matching_buyers_run find_matching_buyers
    rw [h2]

/-- A one-deal, one-property store used to instantiate the not-found theorem. -/
def sampleStoreC8 : Store :=
  { contacts := [{ id := 3, name := "n", email := "e", phone := "p",
                   lead_status := "Hot", source := "Referral",
                   last_contacted_date := none, created_date := none, notes := none }],
    properties := [{ id := 7, property_type := some "Apartment", bedrooms := 1, bathrooms := 1,
                     price := 50, area := some "Downtown" }],
    contact_properties := [],
    deals := [{ id := 5, contact_id := 3, property_id := 7, deal_value := 10,
                created_date := none, status := "Active" }] }

/-- C8 witness: unknown deal id 99 and property id 88 against a store whose
only deal is 5 and only property is 7. -/
theorem unknown_ids_not_found_witness :
    predict_deal_probability_run 0 sampleStoreC8 99 = (Except.error "Deal not found", sampleStoreC8) ∧
    find_matching_buyers_run sampleStoreC8 88 = ([], sampleStoreC8) :=
  unknown_ids_not_found 0 sampleStoreC8 99 88 (by decide) (by decide)

/-! ## C3 and C10: buyer matching -/

theorem pairwise_ne_id_eq {l : List Contact} (h : l.Pairwise (fun a b => a.id ≠ b.id))
    {a b : Contact} (ha : a ∈ l) (hb : b ∈ l) (hid : a.id = b.id) : a = b := by
  induction l with
  | nil => cases ha
  | cons x xs ih =>
    rw [List.pairwise_cons] at h
    rcases List.mem_cons.1 ha with rfl | ha2
    · rcases List.mem_cons.1 hb with rfl | hb2
      · rfl
      · exact absurd hid (h.1 b hb2)
    · rcases List.mem_cons.1 hb with rfl | hb2
      · exact absurd hid.symm (h.1 a ha2)
      · exact ih h.2 ha2 hb2

/-- Membership in the buyer-matching output, when the target property
exists: exactly the images of contacts passing the SQL filter. -/
theorem mem_find_matching_buyers_iff (store : Store) (pid : ℤ) (p : Property)
    (hp : store.properties.find? (fun q => q.id = pid) = some p) (b : BuyerMatch) :
    b ∈ find_matching_buyers store pid ↔
      ∃ c ∈ store.contacts, buyerSqlPass store c = true ∧
        b = { contact_id := c.id, name := c.name, email := c.email, phone := c.phone,
              status := c.lead_status, notes := c.notes.getD "",
              match_score := calculate_buyer_match_score c p } := by
  unfold find_matching_buyers
  rw [hp]
  dsimp only
  rw [List.mem_insertionSort, List.mem_map]
  constructor
  · rintro ⟨c, hc, rfl⟩
    rw [List.mem_insertionSort, List.mem_filter] at hc
    exact ⟨c, hc.1, hc.2, rfl⟩
  · rintro ⟨c, hc, hpass, rfl⟩
    refine ⟨c, ?_, rfl⟩
    rw [List.mem_insertionSort, List.mem_filter]
    exact ⟨hc, hpass⟩

/-- The Boolean SQL filter of buyer matching, read as a proposition. -/
theorem buyerSqlPass_iff (store : Store) (c : Contact) :
    buyerSqlPass store c = true ↔
      (c.lead_status = "Hot" ∨ c.lead_status = "Warm") ∧
      ¬ ∃ cp ∈ store.contact_properties,
          cp.contact_id = c.id ∧ cp.relationship_type = "Owner" := by
  unfold buyerSqlPass
  simp only [Bool.and_eq_true, Bool.or_eq_true, Bool.not_eq_true', List.any_eq_false,
    decide_eq_true_eq, Bool.and_eq_false_iff, decide_eq_false_iff_not]
  constructor
  · rintro ⟨hs, hown⟩
    refine ⟨hs, ?_⟩
    rintro ⟨cp, hcp, hid, hrel⟩
    exact hown cp hcp ⟨hid, hrel⟩
  · rintro ⟨hs, hown⟩
    refine ⟨hs, ?_⟩
    intro cp hcp h
    exact hown ⟨cp, hcp, h.1, h.2⟩

/-- C3 (amended): among the contact population, the buyer-matching candidates
for a stored property are exactly the Hot/Warm contacts that are Owners of
no property at all — the SQL subquery is not restricted to the target
property, so owning any property (also a different one) excludes a contact. -/
theorem matching_buyers_excludes_any_owner (store : Store) (property_id : ℤ)
    (p : Property) (c : Contact)
    (hp : store.properties.find? (fun q => q.id = property_id) = some p)
    (hc : c ∈ store.contacts)
    (huniq : store.contacts.Pairwise (fun a b => a.id ≠ b.id)) :
    (∃ b ∈ find_matching_buyers store property_id, b.contact_id = c.id) ↔
      ((c.lead_status = "Hot" ∨ c.lead_status = "Warm") ∧
        ¬ ∃ cp ∈ store.contact_properties,
            cp.contact_id = c.id ∧ cp.relationship_type = "Owner") := by
  constructor
  · rintro ⟨b, hb, hid⟩
    rw [mem_find_matching_buyers_iff store property_id p hp] at hb
    obtain ⟨c', hc', hpass, rfl⟩ := hb
    have heq : c' = c := pairwise_ne_id_eq huniq hc' hc hid
    subst heq
    exact (buyerSqlPass_iff store c').1 hpass
  · intro hcond
    refine ⟨{ contact_id := c.id, name := c.name, email := c.email, phone := c.phone,
              status := c.lead_status, notes := c.notes.getD "",
              match_score := calculate_buyer_match_score c p }, ?_, rfl⟩
    rw [mem_find_matching_buyers_iff store property_id p hp]
    exact ⟨c, hc, (buyerSqlPass_iff store c).2 hcond, rfl⟩

/-- A Hot contact that owns property 2 but not the target property 1. -/
def storeC3 : Store :=
  { contacts := [{ id := 7, name := "n", email := "e", phone := "p",
                   lead_status := "Hot", source := "Referral",
                   last_contacted_date := none, created_date := none, notes := none }],
    properties := [{ id := 1, property_type := some "Villa", bedrooms := 3, bathrooms := 3,
                     price := 100, area := some "Marina" },
                   { id := 2, property_type := some "Villa", bedrooms := 4, bathrooms := 4,
                     price := 200, area := some "Hills" }],
    contact_properties := [{ contact_id := 7, property_id := 2, relationship_type := "Owner" }],
    deals := [] }

/-- C3 counterexample: contact 7 is Hot and owns only property 2 — a
different property than the target 1 — yet the candidate list for property 1
is empty, where the claim says such a contact is still eligible. -/
theorem matching_buyers_other_owner_excluded_ce :
    find_matching_buyers storeC3 1 = [] ∧
    (∀ cp ∈ storeC3.contact_properties, cp.property_id ≠ 1) ∧
    (∃ c ∈ storeC3.contacts, c.id = 7 ∧ c.lead_status = "Hot") := by
  decide

/-- C3 witness: the amended characterization evaluated on the concrete store
(the Hot owner of another property is excluded). -/
theorem matching_buyers_excludes_any_owner_witness :
    (∃ b ∈ find_matching_buyers storeC3 1, b.contact_id = 7) ↔
      ((("Hot" : String) = "Hot" ∨ ("Hot" : String) = "Warm") ∧
        ¬ ∃ cp ∈ storeC3.contact_properties,
            cp.contact_id = 7 ∧ cp.relationship_type = "Owner") :=
  matching_buyers_excludes_any_owner storeC3 1
    { id := 1, property_type := some "Villa", bedrooms := 3, bathrooms := 3,
      price := 100, area := some "Marina" }
    { id := 7, name := "n", email := "e", phone := "p",
      lead_status := "Hot", source := "Referral",
      last_contacted_date := none, created_date := none, notes := none }
    (by decide) (by decide) (by decide)

/-- A store with a single Hot non-owner contact and one property. -/
def storeC10 : Store :=
  { contacts := [{ id := 3, name := "n", email := "e", phone := "p",
                   lead_status := "Hot", source := "Referral",
                   last_contacted_date := none, created_date := none, notes := none }],
    properties := [{ id := 9, property_type := some "Villa", bedrooms := 3, bathrooms := 3,
                     price := 100, area := some "Marina" }],
    contact_properties := [],
    deals := [] }

/-- C10: every candidate returned by buyer matching has lead_status Hot or
Warm — a Cold or unknown-status contact is never returned — even though the
match-score table itself assigns Cold a base score of 30 and unknown
statuses a base score of 10. -/
theorem matching_buyers_hot_warm_only :
    (∀ (store : Store) (property_id : ℤ) (b : BuyerMatch),
        b ∈ find_matching_buyers store property_id →
        b.status = "Hot" ∨ b.status = "Warm") ∧
    calculate_buyer_match_score
      { id := 4, name := "n", email := "e", phone := "p", lead_status := "Cold",
        source := "Referral", last_contacted_date := none, created_date := none,
        notes := some "nothing relevant" }
      { id := 9, property_type := some "Villa", bedrooms := 3, bathrooms := 3,
        price := 100, area := some "Marina" } = 30 ∧
    calculate_buyer_match_score
      { id := 5, name := "n", email := "e", phone := "p", lead_status := "Prospect",
        source := "Referral", last_contacted_date := none, created_date := none,
        notes := some "nothing relevant" }
      { id := 9, property_type := some "Villa", bedrooms := 3, bathrooms := 3,
        price := 100, area := some "Marina" } = 10 := by
  refine ⟨?_, by decide, by decide⟩
  intro store pid b hb
  unfold find_matching_buyers at hb
  rcases hfind : store.properties.find? (fun q => q.id = pid) with _ | p
  · rw [hfind] at hb
    simp at hb
  · rw [hfind] at hb
    dsimp only at hb
    rw [List.mem_insertionSort, List.mem_map] at hb
    obtain ⟨c, hc, rfl⟩ := hb
    rw [List.mem_insertionSort, List.mem_filter] at hc
    exact ((buyerSqlPass_iff store c).1 hc.2).1

/-- C10 witness: the sole candidate for property 9 in the sample store is the
Hot contact. -/
theorem matching_buyers_hot_warm_only_witness :
    ({ contact_id := 3, name := "n", email := "e", phone := "p", status := "Hot",
       notes := "", match_score := 100 } : BuyerMatch).status = "Hot" ∨
    ({ contact_id := 3, name := "n", email := "e", phone := "p", status := "Hot",
       notes := "", match_score := 100 } : BuyerMatch).status = "Warm" :=
  matching_buyers_hot_warm_only.1 storeC10 9 _ (by decide)

/-! ## C6 and C7: the follow-up pipeline -/

theorem le_fdiv_tpd_iff (x I : ℤ) : I ≤ Int.fdiv x tpd ↔ I * tpd ≤ x := by
  unfold tpd
  rw [Int.fdiv_eq_ediv _ (by norm_num)]
  exact Int.le_ediv_iff_mul_le (by norm_num)

/-- Membership in one status loop's contribution: exactly the entries of
contacts of that status passing the SQL date prefilter and the python
`days_overdue >= interval` check. -/
theorem mem_followUpsForStatus_iff (now : ℤ) (db : List Contact) (s : String) (I : ℤ)
    (e : FollowUpTask) :
    e ∈ followUpsForStatus now db s I ↔
      ∃ c ∈ db, c.lead_status = s ∧
        sqlFollowUpPass (isoformat (now - I * tpd)) c = true ∧
        I ≤ followUpDaysOverdue now I c ∧
        e = followUpEntry s c (followUpDaysOverdue now I c) := by
  unfold followUpsForStatus
  dsimp only
  rw [List.mem_filterMap]
  constructor
  · rintro ⟨p, hp, hf⟩
    rw [List.mem_map] at hp
    obtain ⟨c, hcmem, hpair⟩ := hp
    subst hpair
    simp only [List.mem_insertionSort, List.mem_filter, Bool.and_eq_true,
      decide_eq_true_eq] at hcmem
    by_cases hge : followUpDaysOverdue now I c ≥ I
    · rw [if_pos hge] at hf
      obtain rfl : followUpEntry s c (followUpDaysOverdue now I c) = e := Option.some.inj hf
      exact ⟨c, hcmem.1, hcmem.2.1, hcmem.2.2, hge, rfl⟩
    · rw [if_neg hge] at hf
      cases hf
  · rintro ⟨c, hcdb, hstat, hpass, hge, rfl⟩
    refine ⟨(c, followUpDaysOverdue now I c), ?_, ?_⟩
    · rw [List.mem_map]
      refine ⟨c, ?_, rfl⟩
      simp only [List.mem_insertionSort, List.mem_filter, Bool.and_eq_true,
        decide_eq_true_eq]
      exact ⟨hcdb, hstat, hpass⟩
    · rw [if_pos hge]

/-- C6: the follow-up list is ordered by descending priority with ties in
priority broken by descending `days_overdue` (the relation `followUpOrder`),
and each entry's priority equals the status base (Hot 100, Warm 60, Cold 20,
otherwise 10) plus `min(days_overdue * 10, 50)`. -/
theorem follow_ups_sorted_and_priority (now : ℤ) (db : List Contact) :
    List.Sorted followUpOrder (get_follow_up_tasks now db) ∧
    ∀ e ∈ get_follow_up_tasks now db,
      e.priority = (if e.status = "Hot" then 100 else if e.status = "Warm" then 60
        else if e.status = "Cold" then 20 else 10) + min (e.days_overdue * 10) 50 := by
  constructor
  · unfold get_follow_up_tasks
    exact List.sorted_insertionSort _ _
  · intro e he
    unfold get_follow_up_tasks at he
    rw [List.mem_insertionSort, List.mem_append, List.mem_append] at he
    have hform : ∀ s I, e ∈ followUpsForStatus now db s I →
        e.priority = (if e.status = "Hot" then 100 else if e.status = "Warm" then 60
          else if e.status = "Cold" then 20 else 10) + min (e.days_overdue * 10) 50 := by
      intro s I hm
      rw [mem_followUpsForStatus_iff] at hm
      obtain ⟨c, _, hstat, _, _, rfl⟩ := hm
      unfold followUpEntry calculate_follow_up_priority
      dsimp only
      rw [hstat]
    rcases he with (h | h) | h
    · exact hform _ _ h
    · exact hform _ _ h
    · exact hform _ _ h

/-- A one-contact database: a Hot lead last contacted three days before the
reference time `tpd * 20369` (2025-10-08). -/
def dbC6 : List Contact :=
  [{ id := 1, name := "a", email := "e", phone := "p",
     lead_status := "Hot", source := "Referral",
     last_contacted_date := some { raw := "2025-10-05T00:00:00", parsed := some (tpd * 20366) },
     created_date := none, notes := none }]

/-- The single follow-up entry produced for `dbC6`. -/
def entryC6 : FollowUpTask :=
  { contact_id := 1, name := "a", email := "e", phone := "p", status := "Hot",
    last_contacted_date := some ("2025-10-05T00:00:00"), days_overdue := 3, priority := 130 }

/-- C6 witness: the priority formula evaluated on the concrete entry of the
one-contact database (priority 130 = 100 + min(30, 50)). -/
theorem follow_ups_sorted_and_priority_witness :
    entryC6.priority = (if entryC6.status = "Hot" then 100 else if entryC6.status = "Warm" then 60
      else if entryC6.status = "Cold" then 20 else 10) + min (entryC6.days_overdue * 10) 50 :=
  (follow_ups_sorted_and_priority (tpd * 20369) dbC6).2 entryC6 (by decide)

/-- The `follow_up_intervals` dict of `get_follow_up_tasks`
(Hot 1 day, Warm 3, Cold 7; other statuses are not iterated). -/
def followUpInterval (s : String) : Option ℤ :=
  if s = "Hot" then some 1 else if s = "Warm" then some 3 else if s = "Cold" then some 7 else none

/-- The amended C7 due-condition for a contact with interval `I`:
* a present, parseable `last_contacted_date` must be strictly more than `I`
  days old (the SQL prefilter compares strictly against the cutoff);
* a present but unparseable `last_contacted_date` is included exactly when
  its raw text sorts below the cutoff text (and then counts as maximally
  overdue);
* with no `last_contacted_date`, a parseable nonempty `created_date` must be
  at least `I` days old, and an absent, empty or unparseable `created_date`
  counts as maximally overdue (always due). -/
def dueAmendedC7 (now I : ℤ) (c : Contact) : Prop :=
  match c.last_contacted_date with
  | some d =>
    match d.parsed with
    | some t => I * tpd < now - t
    | none => d.raw.data < (isoformat (now - I * tpd)).data
  | none =>
    match c.created_date with
    | none => True
    | some d =>
      if d.raw = "" then True
      else
        match d.parsed with
        | none => True
        | some t => I * tpd ≤ now - t

/-- A contact (with unique id) appears in one status loop's contribution iff
it has that status and passes the SQL prefilter and the overdue check. -/
theorem appears_for_status_iff (now : ℤ) (db : List Contact) (s : String) (I : ℤ) (c : Contact)
    (hc : c ∈ db) (huniq : db.Pairwise (fun a b => a.id ≠ b.id)) :
    (∃ e ∈ followUpsForStatus now db s I, e.contact_id = c.id) ↔
      (c.lead_status = s ∧ sqlFollowUpPass (isoformat (now - I * tpd)) c = true ∧
        I ≤ followUpDaysOverdue now I c) := by
  constructor
  · rintro ⟨e, he, hid⟩
    rw [mem_followUpsForStatus_iff] at he
    obtain ⟨c', hc', hstat, hpass, hge, rfl⟩ := he
    have heq : c' = c := pairwise_ne_id_eq huniq hc' hc hid
    subst heq
    exact ⟨hstat, hpass, hge⟩
  · rintro ⟨hstat, hpass, hge⟩
    exact ⟨followUpEntry s c (followUpDaysOverdue now I c),
      (mem_followUpsForStatus_iff now db s I _).2 ⟨c, hc, hstat, hpass, hge, rfl⟩, rfl⟩

/-- For canonically stored dates, passing the SQL prefilter together with the
python overdue check is the amended due-condition. -/
theorem pass_and_due_iff_amended (now I : ℤ) (c : Contact)
    (hlast : ∀ d, c.last_contacted_date = some d → d.raw ≠ "" ∧
      ∀ t, d.parsed = some t →
        ((d.raw.data < (isoformat (now - I * tpd)).data) ↔ t < now - I * tpd)) :
    (sqlFollowUpPass (isoformat (now - I * tpd)) c = true ∧
      I ≤ followUpDaysOverdue now I c) ↔ dueAmendedC7 now I c := by
  unfold sqlFollowUpPass followUpDaysOverdue dueAmendedC7 pyOr
  rcases hld : c.last_contacted_date with _ | d
  · dsimp only
    rcases hcd : c.created_date with _ | d2
    · simp only [true_and, iff_true]
      omega
    · dsimp only
      by_cases hr2 : d2.raw = ""
      · rw [if_pos hr2, if_pos hr2]
        simp only [true_and, iff_true]
        omega
      · rw [if_neg hr2, if_neg hr2]
        rcases hp2 : d2.parsed with _ | t <;> dsimp only
        · simp only [true_and, iff_true]
          omega
        · rw [le_fdiv_tpd_iff]
          simp only [true_and]
  · obtain ⟨hne, hcons⟩ := hlast d hld
    dsimp only
    rw [if_neg hne]
    dsimp only
    rw [if_neg hne]
    rcases hp : d.parsed with _ | t <;> dsimp only
    · simp only [decide_eq_true_eq, and_iff_left_iff_imp]
      intro _
      omega
    · have hiff := hcons t hp
      rw [le_fdiv_tpd_iff]
      simp only [decide_eq_true_eq]
      constructor
      · rintro ⟨hsql, _⟩
        have := hiff.1 hsql
        omega
      · intro h
        exact ⟨hiff.2 (by omega), by omega⟩

/-- C7 (amended): for a contact whose stored dates are canonical (raw text
ordered like the parsed timestamp, nonempty when parseable), the contact
appears in the follow-up list exactly when `dueAmendedC7` holds for its
status interval (Hot 1 day, Warm 3, Cold 7): strictly-more-than-`I`-days old
when `last_contacted_date` is present, at-least-`I`-days old on the
`created_date` fallback; absent, empty or unparseable reference dates are
treated as maximally overdue with `days_overdue = interval + 1`, and no
error is raised. -/
theorem follow_up_membership_amended (now : ℤ) (db : List Contact) (c : Contact) (I : ℤ)
    (hc : c ∈ db) (huniq : db.Pairwise (fun a b => a.id ≠ b.id))
    (hI : followUpInterval c.lead_status = some I)
    (hlast : ∀ d, c.last_contacted_date = some d → d.raw ≠ "" ∧
      ∀ t, d.parsed = some t →
        ((d.raw.data < (isoformat (now - I * tpd)).data) ↔ t < now - I * tpd)) :
    ((∃ e ∈ get_follow_up_tasks now db, e.contact_id = c.id) ↔ dueAmendedC7 now I c) ∧
    (pyOr c.last_contacted_date c.created_date = none →
      followUpDaysOverdue now I c = I + 1) ∧
    (∀ d, pyOr c.last_contacted_date c.created_date = some d →
      (d.raw = "" ∨ d.parsed = none) → followUpDaysOverdue now I c = I + 1) := by
  refine ⟨?_, ?_, ?_⟩
  · have hsplit : (∃ e ∈ get_follow_up_tasks now db, e.contact_id = c.id) ↔
        ((∃ e ∈ followUpsForStatus now db "Hot" 1, e.contact_id = c.id) ∨
          (∃ e ∈ followUpsForStatus now db "Warm" 3, e.contact_id = c.id) ∨
          (∃ e ∈ followUpsForStatus now db "Cold" 7, e.contact_id = c.id)) := by
      unfold get_follow_up_tasks
      constructor
      · rintro ⟨e, he, hid⟩
        rw [List.mem_insertionSort, List.mem_append, List.mem_append] at he
        rcases he with (h | h) | h
        · exact Or.inl ⟨e, h, hid⟩
        · exact Or.inr (Or.inl ⟨e, h, hid⟩)
        · exact Or.inr (Or.inr ⟨e, h, hid⟩)
      · rintro (⟨e, he, hid⟩ | ⟨e, he, hid⟩ | ⟨e, he, hid⟩) <;>
          refine ⟨e, ?_, hid⟩ <;>
          rw [List.mem_insertionSort, List.mem_append, List.mem_append]
        · exact Or.inl (Or.inl he)
        · exact Or.inl (Or.inr he)
        · exact Or.inr he
    rw [hsplit, appears_for_status_iff now db "Hot" 1 c hc huniq,
      appears_for_status_iff now db "Warm" 3 c hc huniq,
      appears_for_status_iff now db "Cold" 7 c hc huniq]
    unfold followUpInterval at hI
    by_cases h1 : c.lead_status = "Hot"
    · rw [if_pos h1] at hI
      obtain rfl : (1 : ℤ) = I := Option.some.inj hI
      constructor
      · rintro (⟨_, hp, hd⟩ | ⟨hW, _, _⟩ | ⟨hC, _, _⟩)
        · exact (pass_and_due_iff_amended now 1 c hlast).1 ⟨hp, hd⟩
        · exact absurd (h1.symm.trans hW) (by decide)
        · exact absurd (h1.symm.trans hC) (by decide)
      · intro hdue
        exact Or.inl ⟨h1, (pass_and_due_iff_amended now 1 c hlast).2 hdue⟩
    · rw [if_neg h1] at hI
      by_cases h2 : c.lead_status = "Warm"
      · rw [if_pos h2] at hI
        obtain rfl : (3 : ℤ) = I := Option.some.inj hI
        constructor
        · rintro (⟨hH, _, _⟩ | ⟨_, hp, hd⟩ | ⟨hC, _, _⟩)
          · exact absurd (h2.symm.trans hH) (by decide)
          · exact (pass_and_due_iff_amended now 3 c hlast).1 ⟨hp, hd⟩
          · exact absurd (h2.symm.trans hC) (by decide)
        · intro hdue
          exact Or.inr (Or.inl ⟨h2, (pass_and_due_iff_amended now 3 c hlast).2 hdue⟩)
      · rw [if_neg h2] at hI
        by_cases h3 : c.lead_status = "Cold"
        · rw [if_pos h3] at hI
          obtain rfl : (7 : ℤ) = I := Option.some.inj hI
          constructor
          · rintro (⟨hH, _, _⟩ | ⟨hW, _, _⟩ | ⟨_, hp, hd⟩)
            · exact absurd (h3.symm.trans hH) (by decide)
            · exact absurd (h3.symm.trans hW) (by decide)
            · exact (pass_and_due_iff_amended now 7 c hlast).1 ⟨hp, hd⟩
          · intro hdue
            exact Or.inr (Or.inr ⟨h3, (pass_and_due_iff_amended now 7 c hlast).2 hdue⟩)
        · rw [if_neg h3] at hI
          cases hI
  · intro h
    unfold followUpDaysOverdue
    rw [h]
  · intro d hd hbad
    unfold followUpDaysOverdue
    rw [hd]
    dsimp only
    rcases hbad with hr | hp
    · rw [if_pos hr]
    · by_cases hr : d.raw = ""
      · rw [if_pos hr]
      · rw [if_neg hr, hp]

/-- A Hot contact last contacted exactly one day — exactly the Hot interval —
before the reference time `tpd * 20369` (2025-10-08). -/
def contactC7 : Contact :=
  { id := 1, name := "a", email := "e", phone := "p", lead_status := "Hot", source := "Referral",
    last_contacted_date := some { raw := "2025-10-07T00:00:00", parsed := some (tpd * 20368) },
    created_date := none, notes := none }

/-- C7 counterexample: `contactC7` satisfies the claim's due-condition
(`now - last_contacted` is exactly one day, so at least the Hot interval,
and `days_overdue = 1 ≥ 1`), yet the follow-up list is empty: the SQL
prefilter `last_contacted_date < cutoff` is strict and drops the exact
boundary. -/
theorem follow_up_boundary_excluded_ce :
    get_follow_up_tasks (tpd * 20369) [contactC7] = [] ∧
    contactC7.lead_status = "Hot" ∧
    contactC7.last_contacted_date =
      some { raw := "2025-10-07T00:00:00", parsed := some (tpd * 20368) } ∧
    1 ≤ Int.fdiv (tpd * 20369 - tpd * 20368) tpd := by
  decide

/-- A Hot contact three days overdue at reference time `tpd * 20369`. -/
def contactC7w : Contact :=
  { id := 1, name := "a", email := "e", phone := "p", lead_status := "Hot", source := "Referral",
    last_contacted_date := some { raw := "2025-10-05T00:00:00", parsed := some (tpd * 20366) },
    created_date := none, notes := none }

/-- C7 witness: the amended membership equivalence evaluated on a concrete
one-contact database. -/
theorem follow_up_membership_amended_witness :
    ((∃ e ∈ get_follow_up_tasks (tpd * 20369) [contactC7w], e.contact_id = contactC7w.id) ↔
      dueAmendedC7 (tpd * 20369) 1 contactC7w) ∧
    (pyOr contactC7w.last_contacted_date contactC7w.created_date = none →
      followUpDaysOverdue (tpd * 20369) 1 contactC7w = 1 + 1) ∧
    (∀ d, pyOr contactC7w.last_contacted_date contactC7w.created_date = some d →
      (d.raw = "" ∨ d.parsed = none) → followUpDaysOverdue (tpd * 20369) 1 contactC7w = 1 + 1) :=
  follow_up_membership_amended (tpd * 20369) [contactC7w] contactC7w 1
    (by decide) (by decide) (by decide)
    (by
      intro d hd
      obtain rfl : ({ raw := "2025-10-05T00:00:00", parsed := some (tpd * 20366) } : RawDate) = d :=
        Option.some.inj hd
      refine ⟨by decide, ?_⟩
      intro t ht
      obtain rfl : tpd * 20366 = t := Option.some.inj ht
      decide)

end Aura
